import Mathlib

set_option linter.unusedVariables false

/-!
Shallow embedding of the access-layer message codec and the model-client
helpers of python-bluetooth-mesh, together with proofs of the spec's
claims about them.

Byte strings are `List ℕ` whose entries are octet values; multi-octet
integers are assembled with explicit arithmetic.  Fixed-point physical
quantities are rationals.  Fallible encode/decode steps return `Option`.
-/

namespace BluetoothMesh

/-! Primitive field codecs (construct's Int8ul / Int16sl and friends). -/

/-- Build a 16-bit signed little-endian integer (construct `Int16sl`):
low octet first. -/
def int16sl_build (n : ℤ) : List ℕ :=
  let u : ℕ := (n % 65536).toNat
  [u % 256, u / 256]

/-- Parse a 16-bit signed little-endian integer (construct `Int16sl`). -/
def int16sl_parse (b0 b1 : ℕ) : ℤ :=
  let u : ℕ := b0 + 256 * b1
  if u < 32768 then (u : ℤ) else (u : ℤ) - 65536

/-- Python's `round(x, ndigits)`, on rationals. -/
def pyRound (x : ℚ) (ndigits : ℕ) : ℚ :=
  ((round (x * (10 : ℚ) ^ ndigits) : ℤ) : ℚ) / (10 : ℚ) ^ ndigits

/-- Resolution declared for the thermostat `Temperature` field:
`DefaultCountValidator(Int16sl, rounding=2, resolution=0.01)`. -/
def temperature_resolution : ℚ := 1 / 100

/-- Modelled from the spec: decode step of the fixed-point adapter
`DefaultCountValidator` (bluetooth_mesh/messages/properties.py, absent from
src): "decode computes raw * resolution, rounded to the declared digit
count", here with resolution 0.01 and 2 rounding digits and the raw value
carried by `Int16sl`. -/
def temperature_decode (raw : ℤ) : ℚ :=
  pyRound ((raw : ℚ) * temperature_resolution) 2

/-- Modelled from the spec: encode step of the fixed-point adapter
`DefaultCountValidator` (bluetooth_mesh/messages/properties.py, absent from
src): "encode computes round(value / resolution) and range-checks against
the field's signed/unsigned bit width — out-of-range values are an
encode-time fault"; the subconstruct `Int16sl` bounds the raw value to
[-32768, 32767]. -/
def temperature_encode (v : ℚ) : Option ℤ :=
  let raw : ℤ := round (v / temperature_resolution)
  if -32768 ≤ raw ∧ raw ≤ 32767 then some raw else none

/-! Thermostat enumerations
(bluetooth_mesh/messages/vendor/thermostat.py). -/

inductive ThermostatMode where
  | MANUAL
  | AUTO
  | RSVD1
  | RSVD2
  deriving DecidableEq, Repr

def ThermostatMode.toNat : ThermostatMode → ℕ
  | .MANUAL => 0
  | .AUTO => 1
  | .RSVD1 => 2
  | .RSVD2 => 3

/-- EnumAdapter decode for `ThermostatMode`: a raw value outside the
declared symbol set is a decode fault. -/
def ThermostatMode.fromRaw : ℕ → Option ThermostatMode
  | 0 => some .MANUAL
  | 1 => some .AUTO
  | 2 => some .RSVD1
  | 3 => some .RSVD2
  | _ => none

inductive ThermostatStatusCode where
  | GOOD
  | INVALID_MODE
  | INVALID_TEMPERATURE
  deriving DecidableEq, Repr

def ThermostatStatusCode.toNat : ThermostatStatusCode → ℕ
  | .GOOD => 0
  | .INVALID_MODE => 1
  | .INVALID_TEMPERATURE => 2

def ThermostatStatusCode.fromRaw : ℕ → Option ThermostatStatusCode
  | 0 => some .GOOD
  | 1 => some .INVALID_MODE
  | 2 => some .INVALID_TEMPERATURE
  | _ => none

/-! Thermostat message values, one structure per sub-opcode schema. -/

structure ThermostatSetPayload where
  rsvd : ℕ
  mode : ThermostatMode
  temperature : ℚ
  deriving DecidableEq, Repr

structure ThermostatStatusPayload where
  status_code : ThermostatStatusCode
  rsvd : ℕ
  heater_status : Bool
  mode : ThermostatMode
  onoff_status : Bool
  target_temperature : ℚ
  present_temperature : ℚ
  deriving DecidableEq, Repr

structure ThermostatRangeStatusPayload where
  min_temperature : ℚ
  max_temperature : ℚ
  deriving DecidableEq, Repr

/-- One thermostat message: the sub-opcode discriminant selects the
variant, mirroring the `Switch` on `this.subopcode` in
`ThermostatParams`. -/
inductive ThermostatPayload where
  | get
  | set (p : ThermostatSetPayload)
  | status (p : ThermostatStatusPayload)
  | rangeGet
  | rangeStatus (p : ThermostatRangeStatusPayload)
  deriving DecidableEq, Repr

def ThermostatPayload.subopcode : ThermostatPayload → ℕ
  | .get => 0x00
  | .set _ => 0x01
  | .status _ => 0x02
  | .rangeGet => 0x03
  | .rangeStatus _ => 0x04

def boolBit (b : Bool) : ℕ := if b then 1 else 0

/-! Per-variant builders.  Bit-packed groups are packed MSB-first in
declaration order, so `EmbeddedBitStruct(rsvd:6, mode:2)` is the octet
`rsvd * 4 + mode`, and `EmbeddedBitStruct(rsvd:4, heater:1, mode:2,
onoff:1)` is `rsvd * 16 + heater * 8 + mode * 2 + onoff`. -/

def thermostatSet_build (p : ThermostatSetPayload) : Option (List ℕ) :=
  if p.rsvd < 64 then
    (temperature_encode p.temperature).map
      (fun raw => (p.rsvd * 4 + p.mode.toNat) :: int16sl_build raw)
  else none

def thermostatStatus_build (p : ThermostatStatusPayload) : Option (List ℕ) :=
  if p.rsvd < 16 then
    match temperature_encode p.target_temperature,
          temperature_encode p.present_temperature with
    | some t, some pr =>
        some (p.status_code.toNat ::
          (p.rsvd * 16 + boolBit p.heater_status * 8 +
            p.mode.toNat * 2 + boolBit p.onoff_status) ::
          (int16sl_build t ++ int16sl_build pr))
    | _, _ => none
  else none

def thermostatRangeStatus_build (p : ThermostatRangeStatusPayload) :
    Option (List ℕ) :=
  match temperature_encode p.min_temperature,
        temperature_encode p.max_temperature with
  | some lo, some hi => some (int16sl_build lo ++ int16sl_build hi)
  | _, _ => none

/-- Build `ThermostatParams`: the sub-opcode octet followed by the
variant's payload. -/
def thermostatParams_build : ThermostatPayload → Option (List ℕ)
  | .get => some [0x00]
  | .set p => (thermostatSet_build p).map (0x01 :: ·)
  | .status p => (thermostatStatus_build p).map (0x02 :: ·)
  | .rangeGet => some [0x03]
  | .rangeStatus p => (thermostatRangeStatus_build p).map (0x04 :: ·)

/-! Per-variant parsers, each returning the remaining bytes. -/

def thermostatSet_parse : List ℕ → Option (ThermostatSetPayload × List ℕ)
  | b :: b0 :: b1 :: rest =>
    (ThermostatMode.fromRaw (b % 4)).map
      (fun m => (⟨b / 4, m, temperature_decode (int16sl_parse b0 b1)⟩, rest))
  | _ => none

def thermostatStatus_parse :
    List ℕ → Option (ThermostatStatusPayload × List ℕ)
  | sc :: b :: t0 :: t1 :: p0 :: p1 :: rest =>
    match ThermostatStatusCode.fromRaw sc, ThermostatMode.fromRaw (b / 2 % 4) with
    | some c, some m =>
        some (⟨c, b / 16, b / 8 % 2 = 1, m, b % 2 = 1,
          temperature_decode (int16sl_parse t0 t1),
          temperature_decode (int16sl_parse p0 p1)⟩, rest)
    | _, _ => none
  | _ => none

def thermostatRangeStatus_parse :
    List ℕ → Option (ThermostatRangeStatusPayload × List ℕ)
  | l0 :: l1 :: h0 :: h1 :: rest =>
    some (⟨temperature_decode (int16sl_parse l0 l1),
      temperature_decode (int16sl_parse h0 h1)⟩, rest)
  | _ => none

/-- Parse `ThermostatParams`: read the sub-opcode octet through
`EnumAdapter(Int8ul, ThermostatSubOpcode)`, then switch to the variant's
parser. -/
def thermostatParams_parse : List ℕ → Option (ThermostatPayload × List ℕ)
  | [] => none
  | sub :: rest =>
    match sub with
    | 0x00 => some (.get, rest)
    | 0x01 => (thermostatSet_parse rest).map (fun x => (.set x.1, x.2))
    | 0x02 => (thermostatStatus_parse rest).map (fun x => (.status x.1, x.2))
    | 0x03 => some (.rangeGet, rest)
    | 0x04 =>
        (thermostatRangeStatus_parse rest).map
          (fun x => (.rangeStatus x.1, x.2))
    | _ => none

/-! The opcode codec and the access-message multiplexer. -/

/-- Modelled from the spec: the 1/2/3-octet opcode codec (class `Opcode`
in bluetooth_mesh/messages/util.py, absent from src).  The width is
selected by the high bits of the first octet (0xxxxxxx: one octet,
10xxxxxx: two octets, 11xxxxxx: three octets) and multi-octet opcodes are
big-endian. -/
def parseOpcode : List ℕ → Option (ℕ × List ℕ)
  | [] => none
  | b0 :: rest =>
    if b0 < 0x80 then some (b0, rest)
    else if b0 < 0xC0 then
      match rest with
      | b1 :: rest1 => some (b0 * 256 + b1, rest1)
      | [] => none
    else
      match rest with
      | b1 :: b2 :: rest2 => some (b0 * 65536 + b1 * 256 + b2, rest2)
      | _ => none

/-- An opcode value representable in the 1/2/3-octet forms. -/
def wellFormedOpcode (op : ℕ) : Prop :=
  op < 0x80 ∨ (0x8000 ≤ op ∧ op ≤ 0xBFFF) ∨
    (0xC00000 ≤ op ∧ op ≤ 0xFFFFFF)

instance (op : ℕ) : Decidable (wellFormedOpcode op) := by
  unfold wellFormedOpcode
  infer_instance

/-- Modelled from the spec: build step of the opcode codec (class `Opcode`
in bluetooth_mesh/messages/util.py, absent from src); big-endian, width by
value range, a fault outside the three forms. -/
def buildOpcode (op : ℕ) : Option (List ℕ) :=
  if op < 0x80 then some [op]
  else if 0x8000 ≤ op ∧ op ≤ 0xBFFF then some [op / 256, op % 256]
  else if 0xC00000 ≤ op ∧ op ≤ 0xFFFFFF then
    some [op / 65536, op / 256 % 256, op % 256]
  else none

/-- Parse the full `ThermostatMessage`: the 3-octet opcode (checked
against the `ThermostatOpcode` enumeration, whose only member is
0xC00500), then `ThermostatParams`. -/
def thermostatMessage_parse : List ℕ → Option (ThermostatPayload × List ℕ) :=
  fun bs =>
    match parseOpcode bs with
    | some (op, rest) =>
        if op = 0xC00500 then thermostatParams_parse rest else none
    | none => none

/-- decode = `.parse`: the message value, ignoring trailing bytes. -/
def thermostatMessage_decode (bs : List ℕ) : Option ThermostatPayload :=
  (thermostatMessage_parse bs).map (·.1)

/-- Build the full `ThermostatMessage`: opcode prefix then params. -/
def thermostatMessage_build (v : ThermostatPayload) : Option (List ℕ) :=
  match buildOpcode 0xC00500 with
  | some ob => (thermostatParams_build v).map (ob ++ ·)
  | none => none

/-! The access-message multiplexer (`_AccessMessage` in
bluetooth_mesh/messages/__init__.py).  The opcode registry is a lookup
function from opcode values to schemas; `M` is the type of structured
message values handled by the registered schemas. -/

structure MessageSchema (M : Type) where
  parse : List ℕ → Option M
  build : M → Option (List ℕ)

/-- Result of `AccessMessage.parse`: either a generic envelope of
(opcode, raw undecoded payload) for an unregistered opcode, or a value
decoded by the registered schema. -/
inductive AccessParsed (M : Type) where
  | raw (opcode : ℕ) (params : List ℕ)
  | parsed (message : M)
  deriving DecidableEq, Repr

/-- `_AccessMessage._parse`: read the opcode; on a registry miss return
the raw envelope with the remaining stream bytes; on a hit, seek back to
the start and let the schema parse the whole message. -/
def accessMessage_parse (opcodes : ℕ → Option (MessageSchema M))
    (bs : List ℕ) : Option (AccessParsed M) :=
  match parseOpcode bs with
  | none => none
  | some (op, rest) =>
    match opcodes op with
    | none => some (.raw op rest)
    | some schema => (schema.parse bs).map .parsed

/-- Build input for `_AccessMessage._build`: the params entry is either a
raw byte payload (the unregistered-opcode fallback) or the structured
fields a registered schema encodes. -/
inductive AccessBuildParams (M : Type) where
  | raw (params : List ℕ)
  | fields (m : M)

/-- `_AccessMessage._build` for an explicit numeric opcode: on a registry
hit the schema builds the whole message; on a miss, write the opcode
prefix followed by the caller-supplied raw payload. -/
def accessMessage_build (opcodes : ℕ → Option (MessageSchema M))
    (opcode : ℕ) (params : AccessBuildParams M) : Option (List ℕ) :=
  match opcodes opcode with
  | some schema =>
    match params with
    | .fields m => schema.build m
    | .raw _ => none
  | none =>
    match params with
    | .raw p => (buildOpcode opcode).map (· ++ p)
    | .fields _ => none

/-- The thermostat schema as an entry of the opcode registry. -/
def thermostatSchema : MessageSchema ThermostatPayload :=
  ⟨thermostatMessage_decode, thermostatMessage_build⟩

/-- The opcode registry restricted to the schemas present in src: the
`OPCODES` table of `_AccessMessage` maps `ThermostatOpcode.THERMOSTAT`
(0xC00500) to `ThermostatMessage`. -/
def accessOpcodes : ℕ → Option (MessageSchema ThermostatPayload) :=
  fun op => if op = 0xC00500 then some thermostatSchema else none

/-! Model layer (bluetooth_mesh/models). -/

/-- Python falsy-default `x or dflt` on an optional number: `None` and
`0` both fall back to the default. -/
def orDefault (x : Option ℚ) (dflt : ℚ) : ℚ :=
  match x with
  | none => dflt
  | some v => if v = 0 then dflt else v

/-- Modelled from the spec: `Model.tid()` (bluetooth_mesh/models/base.py,
absent from src).  The transaction identifier is an 8-bit counter that
"increments once per logical user action — never per retransmission";
one call returns the current value and advances the counter. -/
def tidNext (s : ℕ) : ℕ × ℕ := (s % 256, s + 1)

/-- One application message sent by `LightLightnessClient.set_unack` /
`linear_set_unack` (the argument list of `self.send_app` inside
`request`). -/
structure UnackSend where
  opcode : ℕ
  lightness : ℕ
  tid : ℕ
  delay : ℚ
  transition_time : ℚ
  deriving DecidableEq, Repr

/-- The sequence of messages produced by the retransmission loop of
`set_unack` / `linear_set_unack`: each attempt transmits the current
`remaining_delay`, then lowers it by the send interval, clamped at 0
(`remaining_delay = max(0.0, remaining_delay - interval)`). -/
def unackSends (opcode lightness tid : ℕ) (tt : ℚ) :
    ℕ → ℚ → ℚ → List UnackSend
  | 0, _, _ => []
  | r + 1, d, i =>
    ⟨opcode, lightness, tid, d, tt⟩ :: unackSends opcode lightness tid tt r (max 0 (d - i)) i

/-- `LightLightnessClient.set_unack` (and `linear_set_unack`, identical
but for the opcode): sample `self.tid()` once, resolve
`delay or UNACK_DELAY` and `send_interval or UNACK_SEND_INTERVAL`, then
run the retransmission loop; returns the sent messages and the new tid
counter state. -/
def lightLightnessSetUnack (opcode : ℕ) (s : ℕ) (lightness : ℕ) (tt : ℚ)
    (delay send_interval : Option ℚ) (UNACK_DELAY UNACK_SEND_INTERVAL : ℚ)
    (retransmissions : ℕ) : List UnackSend × ℕ :=
  let t := tidNext s
  (unackSends opcode lightness t.1 tt retransmissions
    (orDefault delay UNACK_DELAY)
    (orDefault send_interval UNACK_SEND_INTERVAL), t.2)

/-- The parameter map assembled by `ThermostatClient.set` (one
`self.tid()` sample per call, shared by every node's request). -/
structure ThermostatClientSetParams where
  onoff : ℕ
  mode : ℕ
  rsvd : ℕ
  temperature : ℚ
  tid : ℕ
  deriving DecidableEq, Repr

/-- `ThermostatClient.set`: build the THERMOSTAT_SET parameter map with
`tid=self.tid()`; returns the map and the new tid counter state. -/
def thermostatClientSet (s : ℕ) (onoff mode : ℕ) (temperature : ℚ) :
    ThermostatClientSetParams × ℕ :=
  let t := tidNext s
  (⟨onoff, mode, 0, temperature, t.1⟩, t.2)

/-! Pending-expectation fulfillment (`VendorModel.expect_subapp` in
bluetooth_mesh/models/vendor/thermostat.py).  An inbound application
message as delivered to the callback. -/

structure InboundMessage (α : Type) where
  source : ℕ
  app_index : ℕ
  destination : ℕ
  message : α

/-- The filter applied by the `app_message_received` callback: source and
application-key index must match, the destination must match when a
destination filter was given, and when a parameter filter was given the
decoded sub-message must satisfy `construct_match`. -/
def expectMatches (source app_index : ℕ) (destination : Option ℕ)
    (pmatch : α → Bool) (m : InboundMessage α) : Bool :=
  m.source = source && m.app_index = app_index &&
    (match destination with
     | some d => m.destination = d
     | none => true) &&
    pmatch m.message

/-- One callback invocation of `expect_subapp`: a non-matching message
leaves the future untouched; a matching one sets the result only when
the future is not yet done (`if not future.done(): future.set_result`). -/
def expectStep (source app_index : ℕ) (destination : Option ℕ)
    (pmatch : α → Bool) (st : Option α) (m : InboundMessage α) :
    Option α :=
  if expectMatches source app_index destination pmatch m then
    match st with
    | some r => some r
    | none => some m.message
  else st

/-- The future's state after the callback has seen a whole inbound
sequence, starting from the pending (unresolved) state. -/
def expectRun (source app_index : ℕ) (destination : Option ℕ)
    (pmatch : α → Bool) (msgs : List (InboundMessage α)) : Option α :=
  msgs.foldl (expectStep source app_index destination pmatch) none

/-! Bulk-query timeout resolution at the `LightLightnessClient` call
sites. -/

/-- Timeout handed to `bulk_query` by `LightLightnessClient.get` (also
`set`, `linear_get`, `linear_set`, `range_set`): `timeout=timeout`. -/
def lightLightnessGetTimeout (timeout : Option ℚ) (nodes : List ℕ) :
    Option ℚ :=
  timeout

/-- Timeout handed to `bulk_query` by `LightLightnessClient.last_get`
(also `default_get`, `default_set`, `range_get`):
`timeout=timeout or len(nodes)`. -/
def lightLightnessLastGetTimeout (timeout : Option ℚ) (nodes : List ℕ) :
    Option ℚ :=
  some (orDefault timeout nodes.length)

/-! Building a schema from a loosely typed parameter map (construct
`Struct._build` reads exactly the keys its declared subconstructs name;
entries under any other key are ignored). -/

inductive ParamValue where
  | natVal (n : ℕ)
  | ratVal (q : ℚ)
  deriving DecidableEq, Repr

def ParamMap : Type := String → Option ParamValue

/-- Build the `ThermostatSet` schema from a parameter map: read the
`rsvd`, `mode` and `temperature` entries (a missing or ill-typed entry is
a build fault); every other entry of the map is never consulted. -/
def thermostatSet_buildFromMap (m : ParamMap) : Option (List ℕ) :=
  match m "rsvd", m "mode", m "temperature" with
  | some (.natVal r), some (.natVal md), some (.ratVal t) =>
    match ThermostatMode.fromRaw md with
    | some mode => thermostatSet_build ⟨r, mode, t⟩
    | none => none
  | _, _, _ => none

/-- The parameter map that `ThermostatClient.set` passes for the
THERMOSTAT_SET request: it carries `onoff` and `tid` entries although the
`ThermostatSet` schema declares only `rsvd`, `mode` and
`temperature`. -/
def thermostatClientSetParamMap (p : ThermostatClientSetParams) : ParamMap :=
  fun k =>
    if k = "onoff" then some (.natVal p.onoff)
    else if k = "mode" then some (.natVal p.mode)
    else if k = "rsvd" then some (.natVal p.rsvd)
    else if k = "temperature" then some (.ratVal p.temperature)
    else if k = "tid" then some (.natVal p.tid)
    else none

/-! Quantization of the fixed-point temperature fields: encoding snaps a
value to the nearest multiple of the 0.01 resolution. -/

/-- The value actually represented on the wire for a temperature `t`:
`round(t / 0.01) * 0.01`. -/
def quantizeTemp (t : ℚ) : ℚ := ((round (t * 100) : ℤ) : ℚ) / 100

/-- A thermostat message with each temperature field snapped to its wire
quantization; all other fields unchanged. -/
def ThermostatPayload.quantize : ThermostatPayload → ThermostatPayload
  | .get => .get
  | .set p => .set { p with temperature := quantizeTemp p.temperature }
  | .status p => .status { p with
      target_temperature := quantizeTemp p.target_temperature,
      present_temperature := quantizeTemp p.present_temperature }
  | .rangeGet => .rangeGet
  | .rangeStatus p => .rangeStatus { p with
      min_temperature := quantizeTemp p.min_temperature,
      max_temperature := quantizeTemp p.max_temperature }

/-- Each temperature field of the quantized message is within half of the
declared 0.01 resolution of the original value. -/
def ThermostatPayload.quantClose : ThermostatPayload → Prop
  | .get => True
  | .set p => |quantizeTemp p.temperature - p.temperature| ≤ 1 / 200
  | .status p =>
      |quantizeTemp p.target_temperature - p.target_temperature| ≤ 1 / 200 ∧
      |quantizeTemp p.present_temperature - p.present_temperature| ≤ 1 / 200
  | .rangeGet => True
  | .rangeStatus p =>
      |quantizeTemp p.min_temperature - p.min_temperature| ≤ 1 / 200 ∧
      |quantizeTemp p.max_temperature - p.max_temperature| ≤ 1 / 200

/-! Helper lemmas. -/

theorem mode_fromRaw_toNat (m : ThermostatMode) :
    ThermostatMode.fromRaw m.toNat = some m := by
  cases m <;> rfl

theorem ThermostatMode.toNat_lt (m : ThermostatMode) : m.toNat < 4 := by
  cases m <;> simp [ThermostatMode.toNat]

theorem statusCode_fromRaw_toNat (c : ThermostatStatusCode) :
    ThermostatStatusCode.fromRaw c.toNat = some c := by
  cases c <;> rfl

theorem boolBit_lt (b : Bool) : boolBit b < 2 := by
  cases b <;> simp [boolBit]

theorem int16sl_build_eq (n : ℤ) :
    int16sl_build n = [(n % 65536).toNat % 256, (n % 65536).toNat / 256] :=
  rfl

theorem int16sl_parse_build (n : ℤ) (h1 : -32768 ≤ n) (h2 : n ≤ 32767) :
    int16sl_parse ((n % 65536).toNat % 256) ((n % 65536).toNat / 256) = n := by
  unfold int16sl_parse
  dsimp only
  split <;> omega

theorem temperature_decode_eq (raw : ℤ) :
    temperature_decode raw = (raw : ℚ) / 100 := by
  unfold temperature_decode pyRound temperature_resolution
  rw [show (raw : ℚ) * (1 / 100) * (10 : ℚ) ^ 2 = ((raw : ℤ) : ℚ) by ring]
  rw [round_intCast]
  norm_num

theorem temperature_encode_some (t : ℚ) (raw : ℤ)
    (h : temperature_encode t = some raw) :
    raw = round (t * 100) ∧ -32768 ≤ raw ∧ raw ≤ 32767 := by
  unfold temperature_encode temperature_resolution at h
  rw [show t / (1 / 100) = t * 100 by ring] at h
  dsimp only at h
  split at h
  · cases h
    exact ⟨rfl, by assumption⟩
  · cases h

theorem temperature_encode_intCast_div (raw : ℤ)
    (h1 : -32768 ≤ raw) (h2 : raw ≤ 32767) :
    temperature_encode ((raw : ℚ) / 100) = some raw := by
  unfold temperature_encode temperature_resolution
  rw [show (raw : ℚ) / 100 / (1 / 100) = ((raw : ℤ) : ℚ) by ring]
  rw [round_intCast]
  exact if_pos ⟨h1, h2⟩

theorem quantizeTemp_close (t : ℚ) : |quantizeTemp t - t| ≤ 1 / 200 := by
  unfold quantizeTemp
  have h := abs_sub_round (t * 100)
  rw [abs_sub_comm]
  rw [show t - ((round (t * 100) : ℤ) : ℚ) / 100 =
      (t * 100 - ((round (t * 100) : ℤ) : ℚ)) / 100 by ring]
  rw [abs_div]
  rw [show |(100 : ℚ)| = 100 by norm_num]
  linarith [h]

/-- A successful temperature encode, round-tripped: decoding the raw
value yields the quantized temperature, the quantized temperature encodes
to the same raw value, and the quantization error is at most half the
resolution. -/
theorem temperature_roundtrip (t : ℚ) (raw : ℤ)
    (h : temperature_encode t = some raw) :
    temperature_decode raw = quantizeTemp t ∧
    temperature_encode (quantizeTemp t) = some raw ∧
    |quantizeTemp t - t| ≤ 1 / 200 := by
  obtain ⟨hraw, hlo, hhi⟩ := temperature_encode_some t raw h
  have hq : quantizeTemp t = (raw : ℚ) / 100 := by
    unfold quantizeTemp
    rw [hraw]
  refine ⟨?_, ?_, quantizeTemp_close t⟩
  · rw [temperature_decode_eq, hq]
  · rw [hq]
    exact temperature_encode_intCast_div raw hlo hhi

/-! Claim C2: unknown-opcode decode passthrough. -/

/-- C2: for every inbound byte string whose leading well-formed opcode
has no entry in the opcode registry, `AccessMessage.parse` returns an
envelope containing the original opcode and exactly the remaining
undecoded bytes as params, and never raises a fault. -/
theorem C2_unknown_opcode_passthrough {M : Type}
    (opcodes : ℕ → Option (MessageSchema M)) (bs : List ℕ)
    (op : ℕ) (rest : List ℕ)
    (hparse : parseOpcode bs = some (op, rest))
    (hmiss : opcodes op = none) :
    accessMessage_parse opcodes bs = some (.raw op rest) := by
  simp only [accessMessage_parse, hparse, hmiss]

/-- Witness for C2: the single-octet opcode 0x7E is not registered, so
parsing 7E 01 02 gives the raw envelope (0x7E, [0x01, 0x02]). -/
theorem C2_unknown_opcode_passthrough_witness :
    accessMessage_parse accessOpcodes [0x7E, 0x01, 0x02] =
      some (.raw 0x7E [0x01, 0x02]) :=
  C2_unknown_opcode_passthrough accessOpcodes [0x7E, 0x01, 0x02] 0x7E
    [0x01, 0x02] (by decide) (by rfl)

/-! Claim C3: vendor sub-opcode dispatch on a concrete message. -/

/-- C3: decoding C0 05 00 01 00 5A 0A (opcode 0xC00500, sub-opcode 0x01
selecting the set variant) yields mode = MANUAL (the first enum value)
and temperature 26.5 (raw 0x0A5A = 2650 at resolution 0.01), both through
`ThermostatMessage` and through the `AccessMessage` registry. -/
theorem C3_vendor_subopcode_dispatch :
    thermostatMessage_decode [0xC0, 0x05, 0x00, 0x01, 0x00, 0x5A, 0x0A] =
      some (.set ⟨0, ThermostatMode.MANUAL, 53 / 2⟩) ∧
    accessMessage_parse accessOpcodes
        [0xC0, 0x05, 0x00, 0x01, 0x00, 0x5A, 0x0A] =
      some (.parsed (.set ⟨0, ThermostatMode.MANUAL, 53 / 2⟩)) := by
  have hp : int16sl_parse 0x5A 0x0A = 2650 := by decide
  have ht : temperature_decode (int16sl_parse 0x5A 0x0A) = 53 / 2 := by
    rw [hp, temperature_decode_eq]
    norm_num
  constructor
  · simp only [thermostatMessage_decode, thermostatMessage_parse, parseOpcode,
      thermostatParams_parse, thermostatSet_parse, ThermostatMode.fromRaw, ht]
    norm_num
    exact ht
  · simp only [accessMessage_parse, accessOpcodes, parseOpcode]
    norm_num
    simp only [thermostatSchema, thermostatMessage_decode, thermostatMessage_parse,
      parseOpcode, thermostatParams_parse, thermostatSet_parse,
      ThermostatMode.fromRaw, ht]
    norm_num
    exact ht

/-! Claim C5: at-most-once fulfillment of a pending expectation. -/

theorem expectStep_resolved {α : Type} (src ai : ℕ) (dst : Option ℕ)
    (pm : α → Bool) (r : α) (m : InboundMessage α) :
    expectStep src ai dst pm (some r) m = some r := by
  unfold expectStep
  split <;> rfl

theorem expectRun_resolved {α : Type} (src ai : ℕ) (dst : Option ℕ)
    (pm : α → Bool) (msgs : List (InboundMessage α)) (r : α) :
    msgs.foldl (expectStep src ai dst pm) (some r) = some r := by
  induction msgs with
  | nil => rfl
  | cons m rest ih =>
    rw [List.foldl_cons, expectStep_resolved]
    exact ih

/-- C5: a registered expectation is resolved exactly by the first inbound
message matching its source, application-key index, destination and
parameter filters; every later matching message is discarded and never
replaces the already-resolved result. -/
theorem C5_at_most_once_fulfillment {α : Type} (src ai : ℕ)
    (dst : Option ℕ) (pm : α → Bool) (msgs : List (InboundMessage α)) :
    expectRun src ai dst pm msgs =
      (msgs.find? (expectMatches src ai dst pm)).map InboundMessage.message := by
  unfold expectRun
  induction msgs with
  | nil => rfl
  | cons m rest ih =>
    rw [List.foldl_cons, List.find?_cons]
    by_cases h : expectMatches src ai dst pm m
    · have hstep : expectStep src ai dst pm none m = some m.message := by
        unfold expectStep
        rw [if_pos h]
      rw [hstep, expectRun_resolved]
      simp only [h]
      rfl
    · rw [Bool.not_eq_true] at h
      have hstep : expectStep src ai dst pm none m = none := by
        unfold expectStep
        rw [if_neg (by rw [h]; exact Bool.false_ne_true)]
      rw [hstep]
      simp only [h]
      exact ih

/-! Claim C9: bulk-query timeout resolution at the call sites. -/

/-- C9 counterexample: `last_get` with no caller timeout and three target
nodes hands `bulk_query` the timeout 3 — defaulted from the node count,
not equal to the caller's (absent) timeout. -/
theorem C9_timeout_counterexample :
    lightLightnessLastGetTimeout none [1, 2, 3] ≠ none ∧
    lightLightnessLastGetTimeout none [1, 2, 3] = some 3 := by
  constructor <;> decide

/-- C9 amended: `get` (like `set`, `linear_get`, `linear_set`,
`range_set`) hands `bulk_query` exactly the caller's timeout — absent,
zero, or any nonzero value — while `last_get` (like `default_get`,
`default_set`, `range_get`) passes a nonzero timeout through but
replaces a missing (or zero, Python-falsy) timeout with the number of
target nodes. -/
theorem C9_timeout_amended (q : ℚ) (nodes : List ℕ) (hq : q ≠ 0) :
    lightLightnessGetTimeout (some q) nodes = some q ∧
    lightLightnessGetTimeout (some 0) nodes = some 0 ∧
    lightLightnessGetTimeout none nodes = none ∧
    lightLightnessLastGetTimeout (some q) nodes = some q ∧
    lightLightnessLastGetTimeout none nodes = some nodes.length ∧
    lightLightnessLastGetTimeout (some 0) nodes = some nodes.length := by
  refine ⟨rfl, rfl, rfl, ?_, rfl, ?_⟩
  · simp [lightLightnessLastGetTimeout, orDefault, hq]
  · simp [lightLightnessLastGetTimeout, orDefault]

/-- Witness for C9's amended statement at a concrete nonzero timeout and
a concrete node list. -/
theorem C9_timeout_amended_witness :
    lightLightnessGetTimeout (some 7) [5, 6] = some 7 ∧
    lightLightnessGetTimeout (some 0) [5, 6] = some 0 ∧
    lightLightnessGetTimeout none [5, 6] = none ∧
    lightLightnessLastGetTimeout (some 7) [5, 6] = some 7 ∧
    lightLightnessLastGetTimeout none [5, 6] = some ([5, 6] : List ℕ).length ∧
    lightLightnessLastGetTimeout (some 0) [5, 6] = some ([5, 6] : List ℕ).length :=
  C9_timeout_amended 7 [5, 6] (by norm_num)

/-! Claim C10: encoding ignores parameter-map entries not named in the
schema. -/

/-- C10: two parameter maps that agree on the fields the `ThermostatSet`
schema declares (`rsvd`, `mode`, `temperature`) build identical bytes, no
matter what other entries they carry; in particular the `onoff` and `tid`
entries that `ThermostatClient.set` adds are never transmitted. -/
theorem C10_extra_params_ignored (m1 m2 : ParamMap)
    (hr : m1 "rsvd" = m2 "rsvd") (hm : m1 "mode" = m2 "mode")
    (ht : m1 "temperature" = m2 "temperature") :
    thermostatSet_buildFromMap m1 = thermostatSet_buildFromMap m2 := by
  unfold thermostatSet_buildFromMap
  rw [hr, hm, ht]

/-- Witness for C10: the map assembled by `ThermostatClient.set` (with
its extra `onoff` and `tid` entries) builds the same bytes as the map
holding only the declared fields. -/
theorem C10_extra_params_ignored_witness :
    thermostatSet_buildFromMap (thermostatClientSetParamMap ⟨1, 0, 0, 53 / 2, 42⟩) =
      thermostatSet_buildFromMap (fun k =>
        if k = "rsvd" then some (.natVal 0)
        else if k = "mode" then some (.natVal 0)
        else if k = "temperature" then some (.ratVal (53 / 2))
        else none) :=
  C10_extra_params_ignored _ _ (by rfl) (by rfl) (by rfl)

/-! Claim C4: remaining-delay law of the unacknowledged set loop. -/

theorem max_zero_sub_chain (x c : ℚ) (hc : 0 ≤ c) :
    max 0 (max 0 x - c) = max 0 (x - c) := by
  rcases le_total 0 x with h | h
  · rw [max_eq_right h]
  · rw [max_eq_left h, max_eq_left (show (0 : ℚ) - c ≤ 0 by linarith),
      max_eq_left (show x - c ≤ 0 by linarith)]

theorem unackSends_delay (opcode lightness tid : ℕ) (tt : ℚ) :
    ∀ (R i : ℕ) (d inter : ℚ), i < R → 0 ≤ d → 0 ≤ inter →
      ((unackSends opcode lightness tid tt R d inter).getD i
          ⟨0, 0, 0, 0, 0⟩).delay = max 0 (d - i * inter)
  | 0, i, d, inter, hi, _, _ => absurd hi (Nat.not_lt_zero i)
  | R + 1, 0, d, inter, _, hD, _ => by
    simp only [unackSends, List.getD_cons_zero]
    rw [Nat.cast_zero, zero_mul, sub_zero, max_eq_right hD]
  | R + 1, i + 1, d, inter, hi, hD, hI => by
    simp only [unackSends, List.getD_cons_succ]
    rw [unackSends_delay opcode lightness tid tt R i (max 0 (d - inter)) inter
      (Nat.lt_of_succ_lt_succ hi) (le_max_left 0 _) hI]
    rw [max_zero_sub_chain (d - inter) (i * inter)
      (mul_nonneg (Nat.cast_nonneg i) hI)]
    congr 1
    push_cast
    ring

/-- C4: on attempt `i` (0-indexed) of the retransmission loop of
`LightLightnessClient.set_unack` / `linear_set_unack`, the transmitted
delay equals `max(0, D − i·I)` where `D` is the resolved initial delay
and `I` the resolved pacing interval; in particular it decreases by `I`
per retransmission and never goes negative. -/
theorem C4_remaining_delay_law (opcode s lightness : ℕ) (tt : ℚ)
    (delay si : Option ℚ) (UD USI : ℚ) (R i : ℕ)
    (hi : i < R) (hD : 0 ≤ orDefault delay UD)
    (hI : 0 ≤ orDefault si USI) :
    (((lightLightnessSetUnack opcode s lightness tt delay si UD USI R).1.getD i
        ⟨0, 0, 0, 0, 0⟩).delay)
      = max 0 (orDefault delay UD - i * orDefault si USI) := by
  simp only [lightLightnessSetUnack]
  exact unackSends_delay opcode lightness (tidNext s).1 tt R i _ _ hi hD hI

/-- Witness for C4: three retransmissions with initial delay 1 and
interval 1/2; the third attempt transmits max(0, 1 − 2·(1/2)) = 0. -/
theorem C4_remaining_delay_law_witness :
    2 < 3 ∧ (0 : ℚ) ≤ orDefault (some 1) 5 ∧
    (0 : ℚ) ≤ orDefault (some (1 / 2)) 7 ∧
    (((lightLightnessSetUnack 0x824D 0 10 0 (some 1) (some (1 / 2)) 5 7 3).1.getD 2
        ⟨0, 0, 0, 0, 0⟩).delay)
      = max 0 (orDefault (some 1) 5 - 2 * orDefault (some (1 / 2)) 7) :=
  ⟨by norm_num, by norm_num [orDefault], by norm_num [orDefault],
    C4_remaining_delay_law 0x824D 0 10 0 (some 1) (some (1 / 2)) 5 7 3 2
      (by norm_num) (by norm_num [orDefault]) (by norm_num [orDefault])⟩

/-! Claim C6: transaction-identifier discipline. -/

theorem unackSends_map_tid (opcode lightness tid : ℕ) (tt : ℚ) :
    ∀ (R : ℕ) (d inter : ℚ),
      (unackSends opcode lightness tid tt R d inter).map UnackSend.tid =
        List.replicate R tid
  | 0, d, inter => rfl
  | R + 1, d, inter => by
    simp only [unackSends, List.map_cons, List.replicate_succ]
    rw [unackSends_map_tid opcode lightness tid tt R _ inter]

/-- C6: all `R` retransmissions issued inside one unacknowledged set call
carry the one transaction identifier sampled before the loop, while two
consecutive `ThermostatClient.set` calls from one client sample two
different transaction identifiers. -/
theorem C6_tid_discipline (opcode s lightness : ℕ) (tt : ℚ)
    (delay si : Option ℚ) (UD USI : ℚ) (R : ℕ)
    (onoff1 mode1 onoff2 mode2 : ℕ) (temp1 temp2 : ℚ) :
    ((lightLightnessSetUnack opcode s lightness tt delay si UD USI R).1.map
        UnackSend.tid) = List.replicate R (tidNext s).1 ∧
    (thermostatClientSet s onoff1 mode1 temp1).1.tid ≠
      (thermostatClientSet (thermostatClientSet s onoff1 mode1 temp1).2
        onoff2 mode2 temp2).1.tid := by
  constructor
  · simp only [lightLightnessSetUnack]
    exact unackSends_map_tid opcode lightness (tidNext s).1 tt R _ _
  · simp only [thermostatClientSet, tidNext]
    omega

/-! Claim C7: wire endianness of the temperature fields. -/

/-- C7 counterexample: encoding the thermostat set message with
temperature 26.5 (raw 2650 = 0x0A5A) transmits the temperature octets as
5A 0A — least significant octet first — not the most-significant-first
rendering 0A 5A that the claim requires. -/
theorem C7_endianness_counterexample :
    thermostatMessage_build (.set ⟨0, ThermostatMode.MANUAL, 53 / 2⟩) =
      some ([0xC0, 0x05, 0x00, 0x01, 0x00] ++ int16sl_build 2650) ∧
    int16sl_build 2650 = [0x5A, 0x0A] ∧
    [0x5A, 0x0A] ≠ [2650 / 256 % 256, 2650 % 256] := by
  have henc : temperature_encode (53 / 2 : ℚ) = some 2650 := by
    rw [show (53 / 2 : ℚ) = ((2650 : ℤ) : ℚ) / 100 by norm_num]
    exact temperature_encode_intCast_div 2650 (by norm_num) (by norm_num)
  refine ⟨?_, by decide, by decide⟩
  simp only [thermostatMessage_build, thermostatParams_build,
    thermostatSet_build, henc, buildOpcode, ThermostatMode.toNat]
  norm_num

/-- C7 amended: the 3-octet opcode is big-endian, but the 16-bit scaled
temperature fields are carried by `Int16sl`, little-endian: the first
transmitted octet holds the least significant 8 bits of the raw value,
and parsing in that order recovers the value. -/
theorem C7_endianness_amended (n : ℤ) (h1 : -32768 ≤ n) (h2 : n ≤ 32767) :
    int16sl_build n = [(n % 256).toNat, ((n % 65536) / 256).toNat] ∧
    int16sl_parse (n % 256).toNat ((n % 65536) / 256).toNat = n ∧
    buildOpcode 0xC00500 = some [0xC0, 0x05, 0x00] := by
  refine ⟨?_, ?_, by decide⟩
  · rw [int16sl_build_eq]
    simp only [List.cons.injEq, and_true]
    constructor <;> omega
  · unfold int16sl_parse
    dsimp only
    split <;> omega

/-- Witness for C7's amended statement: raw 2650 is transmitted as
5A 0A and parses back to 2650. -/
theorem C7_endianness_amended_witness :
    int16sl_build 2650 = [((2650 : ℤ) % 256).toNat, (((2650 : ℤ) % 65536) / 256).toNat] ∧
    int16sl_parse ((2650 : ℤ) % 256).toNat (((2650 : ℤ) % 65536) / 256).toNat = 2650 ∧
    buildOpcode 0xC00500 = some [0xC0, 0x05, 0x00] :=
  C7_endianness_amended 2650 (by norm_num) (by norm_num)

/-! Claim C8: unregistered-opcode encode fallback mirrors decode. -/

theorem parseOpcode_append_buildOpcode (op : ℕ) (ob p : List ℕ)
    (hob : buildOpcode op = some ob) :
    parseOpcode (ob ++ p) = some (op, p) := by
  unfold buildOpcode at hob
  by_cases h1 : op < 0x80
  · rw [if_pos h1] at hob
    cases hob
    simp only [List.cons_append, List.nil_append, parseOpcode]
    rw [if_pos h1]
  · rw [if_neg h1] at hob
    by_cases h2 : 0x8000 ≤ op ∧ op ≤ 0xBFFF
    · rw [if_pos h2] at hob
      cases hob
      simp only [List.cons_append, List.nil_append, parseOpcode]
      rw [if_neg (by omega), if_pos (by omega)]
      have he : op / 256 * 256 + op % 256 = op := by omega
      rw [he]
    · rw [if_neg h2] at hob
      by_cases h3 : 0xC00000 ≤ op ∧ op ≤ 0xFFFFFF
      · rw [if_pos h3] at hob
        cases hob
        simp only [List.cons_append, List.nil_append, parseOpcode]
        rw [if_neg (by omega), if_neg (by omega)]
        have he : op / 65536 * 65536 + op / 256 % 256 * 256 + op % 256 = op := by
          omega
        rw [he]
      · rw [if_neg h3] at hob
        cases hob

/-- C8: for an explicit numeric opcode with no registered schema,
`AccessMessage.build` of (opcode, raw params) produces exactly the
encoded opcode prefix followed by the raw payload, and parsing those
bytes back yields the same opcode and payload. -/
theorem C8_unregistered_build_fallback {M : Type}
    (opcodes : ℕ → Option (MessageSchema M)) (op : ℕ) (p ob : List ℕ)
    (hmiss : opcodes op = none) (hob : buildOpcode op = some ob) :
    accessMessage_build opcodes op (.raw p) = some (ob ++ p) ∧
    accessMessage_parse opcodes (ob ++ p) = some (.raw op p) := by
  constructor
  · simp only [accessMessage_build, hmiss, hob, Option.map_some']
  · simp only [accessMessage_parse,
      parseOpcode_append_buildOpcode op ob p hob, hmiss]

/-- Witness for C8: the 2-octet opcode 0x8123 is not registered; building
it with raw payload AB yields 81 23 AB, which parses back to the raw
envelope. -/
theorem C8_unregistered_build_fallback_witness :
    accessMessage_build accessOpcodes 0x8123 (.raw [0xAB]) =
      some ([0x81, 0x23] ++ [0xAB]) ∧
    accessMessage_parse accessOpcodes ([0x81, 0x23] ++ [0xAB]) =
      some (.raw 0x8123 [0xAB]) :=
  C8_unregistered_build_fallback accessOpcodes 0x8123 [0xAB] [0x81, 0x23]
    (by rfl) (by decide)

/-! Claim C1: codec round trip for the thermostat message family. -/

theorem decide_boolBit_eq_one (b : Bool) : decide (boolBit b = 1) = b := by
  cases b <;> rfl

theorem quantClose_all (v : ThermostatPayload) : v.quantClose := by
  cases v with
  | get => trivial
  | rangeGet => trivial
  | set p => exact quantizeTemp_close p.temperature
  | status p => exact ⟨quantizeTemp_close _, quantizeTemp_close _⟩
  | rangeStatus p => exact ⟨quantizeTemp_close _, quantizeTemp_close _⟩

theorem thermostatSet_roundtrip (p : ThermostatSetPayload) (pb tail : List ℕ)
    (h : thermostatSet_build p = some pb) :
    thermostatSet_parse (pb ++ tail) =
      some (⟨p.rsvd, p.mode, quantizeTemp p.temperature⟩, tail) ∧
    thermostatSet_build ⟨p.rsvd, p.mode, quantizeTemp p.temperature⟩ =
      some pb := by
  unfold thermostatSet_build at h
  by_cases hr : p.rsvd < 64
  swap
  · rw [if_neg hr] at h; cases h
  rw [if_pos hr] at h
  cases henc : temperature_encode p.temperature with
  | none => rw [henc] at h; cases h
  | some raw =>
    rw [henc, Option.map_some'] at h
    have hbounds := (temperature_encode_some p.temperature raw henc).2
    obtain ⟨hdec, henc2, _⟩ := temperature_roundtrip p.temperature raw henc
    cases h
    constructor
    · rw [int16sl_build_eq]
      have ht4 := ThermostatMode.toNat_lt p.mode
      have hm4 : (p.rsvd * 4 + p.mode.toNat) % 4 = p.mode.toNat := by omega
      have hd4 : (p.rsvd * 4 + p.mode.toNat) / 4 = p.rsvd := by omega
      simp only [List.cons_append, List.nil_append, thermostatSet_parse, hm4,
        hd4, mode_fromRaw_toNat, Option.map_some',
        int16sl_parse_build raw hbounds.1 hbounds.2, hdec]
    · unfold thermostatSet_build
      dsimp only
      rw [if_pos hr, henc2, Option.map_some']

theorem thermostatStatus_roundtrip (p : ThermostatStatusPayload)
    (pb tail : List ℕ) (h : thermostatStatus_build p = some pb) :
    thermostatStatus_parse (pb ++ tail) =
      some (⟨p.status_code, p.rsvd, p.heater_status, p.mode, p.onoff_status,
        quantizeTemp p.target_temperature,
        quantizeTemp p.present_temperature⟩, tail) ∧
    thermostatStatus_build ⟨p.status_code, p.rsvd, p.heater_status, p.mode,
      p.onoff_status, quantizeTemp p.target_temperature,
      quantizeTemp p.present_temperature⟩ = some pb := by
  unfold thermostatStatus_build at h
  by_cases hr : p.rsvd < 16
  swap
  · rw [if_neg hr] at h; cases h
  rw [if_pos hr] at h
  cases henc1 : temperature_encode p.target_temperature with
  | none => rw [henc1] at h; simp at h
  | some rawT =>
  cases henc2 : temperature_encode p.present_temperature with
  | none => rw [henc1, henc2] at h; simp at h
  | some rawP =>
    rw [henc1, henc2] at h
    dsimp only at h
    have hboundsT := (temperature_encode_some p.target_temperature rawT henc1).2
    have hboundsP := (temperature_encode_some p.present_temperature rawP henc2).2
    obtain ⟨hdecT, hencT, _⟩ := temperature_roundtrip p.target_temperature rawT henc1
    obtain ⟨hdecP, hencP, _⟩ := temperature_roundtrip p.present_temperature rawP henc2
    cases h
    have hto := ThermostatMode.toNat_lt p.mode
    have hbh := boolBit_lt p.heater_status
    have hbo := boolBit_lt p.onoff_status
    set bb : ℕ := p.rsvd * 16 + boolBit p.heater_status * 8 +
      p.mode.toNat * 2 + boolBit p.onoff_status with hbb
    constructor
    · rw [int16sl_build_eq, int16sl_build_eq]
      have h16 : bb / 16 = p.rsvd := by omega
      have h8 : bb / 8 % 2 = boolBit p.heater_status := by omega
      have h2 : bb / 2 % 4 = p.mode.toNat := by omega
      have h1 : bb % 2 = boolBit p.onoff_status := by omega
      simp only [List.cons_append, List.nil_append, thermostatStatus_parse,
        statusCode_fromRaw_toNat, h16, h8, h2, h1,
        mode_fromRaw_toNat, decide_boolBit_eq_one,
        int16sl_parse_build rawT hboundsT.1 hboundsT.2,
        int16sl_parse_build rawP hboundsP.1 hboundsP.2, hdecT, hdecP]
    · unfold thermostatStatus_build
      dsimp only
      rw [if_pos hr, hencT, hencP]

theorem thermostatRangeStatus_roundtrip (p : ThermostatRangeStatusPayload)
    (pb tail : List ℕ) (h : thermostatRangeStatus_build p = some pb) :
    thermostatRangeStatus_parse (pb ++ tail) =
      some (⟨quantizeTemp p.min_temperature,
        quantizeTemp p.max_temperature⟩, tail) ∧
    thermostatRangeStatus_build ⟨quantizeTemp p.min_temperature,
      quantizeTemp p.max_temperature⟩ = some pb := by
  unfold thermostatRangeStatus_build at h
  cases henc1 : temperature_encode p.min_temperature with
  | none => rw [henc1] at h; simp at h
  | some rawL =>
  cases henc2 : temperature_encode p.max_temperature with
  | none => rw [henc1, henc2] at h; simp at h
  | some rawH =>
    rw [henc1, henc2] at h
    dsimp only at h
    have hboundsL := (temperature_encode_some p.min_temperature rawL henc1).2
    have hboundsH := (temperature_encode_some p.max_temperature rawH henc2).2
    obtain ⟨hdecL, hencL, _⟩ := temperature_roundtrip p.min_temperature rawL henc1
    obtain ⟨hdecH, hencH, _⟩ := temperature_roundtrip p.max_temperature rawH henc2
    cases h
    constructor
    · rw [int16sl_build_eq, int16sl_build_eq]
      simp only [List.cons_append, List.nil_append, thermostatRangeStatus_parse,
        int16sl_parse_build rawL hboundsL.1 hboundsL.2,
        int16sl_parse_build rawH hboundsH.1 hboundsH.2, hdecL, hdecH]
    · unfold thermostatRangeStatus_build
      dsimp only
      rw [hencL, hencH]

theorem thermostatParams_roundtrip (v : ThermostatPayload) (pb tail : List ℕ)
    (h : thermostatParams_build v = some pb) :
    thermostatParams_parse (pb ++ tail) = some (v.quantize, tail) ∧
    thermostatParams_build v.quantize = some pb := by
  cases v with
  | get =>
    cases h
    exact ⟨rfl, rfl⟩
  | rangeGet =>
    cases h
    exact ⟨rfl, rfl⟩
  | set p =>
    simp only [thermostatParams_build] at h
    cases hb : thermostatSet_build p with
    | none => rw [hb] at h; simp at h
    | some spb =>
      rw [hb, Option.map_some'] at h
      cases h
      obtain ⟨hp, hb2⟩ := thermostatSet_roundtrip p spb tail hb
      constructor
      · simp only [List.cons_append, thermostatParams_parse, hp,
          Option.map_some', ThermostatPayload.quantize]
      · simp only [ThermostatPayload.quantize, thermostatParams_build, hb2,
          Option.map_some']
  | status p =>
    simp only [thermostatParams_build] at h
    cases hb : thermostatStatus_build p with
    | none => rw [hb] at h; simp at h
    | some spb =>
      rw [hb, Option.map_some'] at h
      cases h
      obtain ⟨hp, hb2⟩ := thermostatStatus_roundtrip p spb tail hb
      constructor
      · simp only [List.cons_append, thermostatParams_parse, hp,
          Option.map_some', ThermostatPayload.quantize]
      · simp only [ThermostatPayload.quantize, thermostatParams_build, hb2,
          Option.map_some']
  | rangeStatus p =>
    simp only [thermostatParams_build] at h
    cases hb : thermostatRangeStatus_build p with
    | none => rw [hb] at h; simp at h
    | some spb =>
      rw [hb, Option.map_some'] at h
      cases h
      obtain ⟨hp, hb2⟩ := thermostatRangeStatus_roundtrip p spb tail hb
      constructor
      · simp only [List.cons_append, thermostatParams_parse, hp,
          Option.map_some', ThermostatPayload.quantize]
      · simp only [ThermostatPayload.quantize, thermostatParams_build, hb2,
          Option.map_some']

theorem parseOpcode_c00500 (rest : List ℕ) :
    parseOpcode (0xC0 :: 0x05 :: 0x00 :: rest) = some (0xC00500, rest) := by
  simp [parseOpcode]

/-- C1: for every thermostat message value that encodes successfully,
decoding the produced bytes yields the value with each temperature field
snapped to its declared quantization (within half the 0.01 resolution),
and re-encoding the decoded value reproduces the bytes exactly — so
`decode(encode(v)) = v` up to quantization and `encode(decode(b)) = b`
for every `b` that `encode` can produce. -/
theorem C1_codec_roundtrip (v : ThermostatPayload) (bs : List ℕ)
    (henc : thermostatMessage_build v = some bs) :
    thermostatMessage_decode bs = some v.quantize ∧
    thermostatMessage_build v.quantize = some bs ∧
    v.quantClose := by
  have hop : buildOpcode 0xC00500 = some [0xC0, 0x05, 0x00] := by decide
  unfold thermostatMessage_build at henc
  rw [hop] at henc
  dsimp only at henc
  cases hpb : thermostatParams_build v with
  | none => rw [hpb] at henc; simp at henc
  | some pb =>
    rw [hpb, Option.map_some'] at henc
    cases henc
    obtain ⟨hparse, hbuild⟩ := thermostatParams_roundtrip v pb [] hpb
    rw [List.append_nil] at hparse
    refine ⟨?_, ?_, quantClose_all v⟩
    · unfold thermostatMessage_decode thermostatMessage_parse
      simp only [List.cons_append, List.nil_append, parseOpcode_c00500]
      rw [if_pos trivial, hparse, Option.map_some']
    · unfold thermostatMessage_build
      rw [hop]
      dsimp only
      rw [hbuild, Option.map_some']

/-- Witness for C1 at the thermostat set message with temperature 26.5,
the vector of the repository's own test suite. -/
theorem C1_codec_roundtrip_witness :
    thermostatMessage_build (.set ⟨0, ThermostatMode.MANUAL, 53 / 2⟩) =
      some [0xC0, 0x05, 0x00, 0x01, 0x00, 0x5A, 0x0A] ∧
    (thermostatMessage_decode [0xC0, 0x05, 0x00, 0x01, 0x00, 0x5A, 0x0A] =
      some (ThermostatPayload.set ⟨0, ThermostatMode.MANUAL, 53 / 2⟩).quantize ∧
    thermostatMessage_build
        (ThermostatPayload.set ⟨0, ThermostatMode.MANUAL, 53 / 2⟩).quantize =
      some [0xC0, 0x05, 0x00, 0x01, 0x00, 0x5A, 0x0A] ∧
    (ThermostatPayload.set ⟨0, ThermostatMode.MANUAL, 53 / 2⟩).quantClose) := by
  have h2650 : temperature_encode (53 / 2 : ℚ) = some 2650 := by
    rw [show (53 / 2 : ℚ) = ((2650 : ℤ) : ℚ) / 100 by norm_num]
    exact temperature_encode_intCast_div 2650 (by norm_num) (by norm_num)
  have hb : int16sl_build 2650 = [0x5A, 0x0A] := by decide
  have henc : thermostatMessage_build (.set ⟨0, ThermostatMode.MANUAL, 53 / 2⟩) =
      some [0xC0, 0x05, 0x00, 0x01, 0x00, 0x5A, 0x0A] := by
    simp only [thermostatMessage_build, buildOpcode, thermostatParams_build,
      thermostatSet_build, h2650, hb, ThermostatMode.toNat, Option.map_some']
    norm_num
  exact ⟨henc, C1_codec_roundtrip _ _ henc⟩

end BluetoothMesh
